import Mathlib

/-!
Verification of the health-evaluation and alerting-decision engine of
`monitoring/pg_ha_monitor.py` (PostgreSQL HA cluster monitor).

The Python source is shallowly embedded: the I/O collaborators
(`get_cluster_state`, `check_node_health`, `get_replication_status`) are
modelled as inputs to the pure evaluation functions, wall-clock reads
(`datetime.now()`) become explicit `now : Int` parameters (seconds), and
Python `datetime` values become `Int` timestamps.  Python truthiness of a
lag value (`if lag:`) is modelled explicitly: `None` and `0` are falsy,
any other integer is truthy.
-/

namespace PGHA

/-- `class NodeState(Enum)` from the source: the pg_auto_failover state codes. -/
inductive NodeState where
  | UNKNOWN
  | DRAINING
  | WAIT_STANDBY
  | SECONDARY
  | PRIMARY
  | SINGLE
deriving DecidableEq, Repr

/-- The integer code of each `NodeState` enum member (`UNKNOWN = -1`, ...). -/
def NodeState.code : NodeState → Int
  | .UNKNOWN => -1
  | .DRAINING => 0
  | .WAIT_STANDBY => 1
  | .SECONDARY => 2
  | .PRIMARY => 3
  | .SINGLE => 4

/-- `state.name.lower()` used for the `role` field of `NodeInfo`. -/
def NodeState.lowerName : NodeState → String
  | .UNKNOWN => "unknown"
  | .DRAINING => "draining"
  | .WAIT_STANDBY => "wait_standby"
  | .SECONDARY => "secondary"
  | .PRIMARY => "primary"
  | .SINGLE => "single"

/-- `try: state = NodeState(state_code) except ValueError: state = NodeState.UNKNOWN`
(lines 349-352): total classification of an arbitrary integer role code. -/
def NodeState.ofCode (c : Int) : NodeState :=
  if c = -1 then .UNKNOWN
  else if c = 0 then .DRAINING
  else if c = 1 then .WAIT_STANDBY
  else if c = 2 then .SECONDARY
  else if c = 3 then .PRIMARY
  else if c = 4 then .SINGLE
  else .UNKNOWN

/-- `class HealthStatus(Enum)` from the source. -/
inductive HealthStatus where
  | HEALTHY
  | UNHEALTHY
  | UNKNOWN
deriving DecidableEq, Repr

/-- One row of `cluster_state['nodes']` together with the results of the two
I/O probes the per-node loop performs on it: `check_node_health` (a
`(HealthStatus, message)` pair) and `get_replication_status` (either `None`
or a list of replication slots, each carrying its `replay_lag_bytes` value,
which may be SQL NULL, hence `Option Int`). -/
structure NodeData where
  nodename : String
  nodehost : String
  nodeport : Int
  reportedstate : Int
  statechangetime : Int
  health : HealthStatus
  healthMessage : String
  repStatus : Option (List (Option Int))
deriving DecidableEq, Repr

/-- The value returned by `get_cluster_state` when the monitor is reachable. -/
structure ClusterState where
  nodes : List NodeData
  timestamp : Int
deriving DecidableEq, Repr

/-- `@dataclass NodeInfo` from the source. -/
structure NodeInfo where
  name : String
  hostname : String
  port : Int
  role : String
  state : NodeState
  health : HealthStatus
  replication_lag : Option Int
  last_seen : Int
deriving DecidableEq, Repr

/-- `@dataclass ClusterHealth` from the source. -/
structure ClusterHealth where
  timestamp : Int
  nodes : List NodeInfo
  primary_count : Nat
  replica_count : Nat
  unhealthy_nodes : Nat
  max_replication_lag : Option Int
  failover_ready : Bool
  issues : List String
deriving DecidableEq, Repr

/-- Python truthiness of a lag value: `None` and `0` are falsy. -/
def lagTruthy : Option Int → Bool
  | none => false
  | some v => v != 0

/-- The inner slot loop of `perform_health_check` (lines 373-378):

    for slot in rep_status['replication_slots']:
        lag = slot.get('replay_lag_bytes', 0)
        if lag and lag > max_lag:
            max_lag = lag
        if lag:
            replication_lag = lag

Threads the running global `max_lag` and the node's `replication_lag`. -/
def slotFold : List (Option Int) → Int → Option Int → Int × Option Int
  | [], maxLag, repLag => (maxLag, repLag)
  | lag :: rest, maxLag, repLag =>
    let maxLag' := match lag with
      | some v => if v ≠ 0 ∧ maxLag < v then v else maxLag
      | none => maxLag
    let repLag' := match lag with
      | some v => if v ≠ 0 then some v else repLag
      | none => repLag
    slotFold rest maxLag' repLag'

/-- The accumulator variables of the per-node loop in `perform_health_check`
(`nodes`, `primary_count`, `replica_count`, `unhealthy_nodes`, `max_lag`,
`issues`, lines 339-344). -/
structure AggState where
  nodes : List NodeInfo
  primary_count : Nat
  replica_count : Nat
  unhealthy_nodes : Nat
  max_lag : Int
  issues : List String
deriving DecidableEq, Repr

/-- Initial accumulator values (lines 339-344). -/
def initAgg : AggState :=
  { nodes := [], primary_count := 0, replica_count := 0, unhealthy_nodes := 0,
    max_lag := 0, issues := [] }

/-- One iteration of the `for node_data in cluster_state['nodes']` loop
(lines 346-391). -/
def processNode (st : AggState) (nd : NodeData) : AggState :=
  let state := NodeState.ofCode nd.reportedstate
  let (primary_count, replica_count) :=
    if state = NodeState.PRIMARY then (st.primary_count + 1, st.replica_count)
    else if state = NodeState.SECONDARY ∨ state = NodeState.WAIT_STANDBY then
      (st.primary_count, st.replica_count + 1)
    else (st.primary_count, st.replica_count)
  let unhealthy_nodes :=
    if nd.health = HealthStatus.UNHEALTHY then st.unhealthy_nodes + 1
    else st.unhealthy_nodes
  let issues :=
    if nd.health = HealthStatus.UNHEALTHY then
      st.issues ++ ["Node " ++ nd.nodename ++ ": " ++ nd.healthMessage]
    else st.issues
  let (max_lag, replication_lag) :=
    if state = NodeState.SECONDARY ∨ state = NodeState.WAIT_STANDBY then
      match nd.repStatus with
      | some slots => if slots ≠ [] then slotFold slots st.max_lag none
                      else (st.max_lag, none)
      | none => (st.max_lag, none)
    else (st.max_lag, none)
  let info : NodeInfo :=
    { name := nd.nodename, hostname := nd.nodehost, port := nd.nodeport,
      role := state.lowerName, state := state, health := nd.health,
      replication_lag := replication_lag, last_seen := nd.statechangetime }
  { nodes := st.nodes ++ [info], primary_count := primary_count,
    replica_count := replica_count, unhealthy_nodes := unhealthy_nodes,
    max_lag := max_lag, issues := issues }

/-- The whole per-node loop. -/
def aggregate (nds : List NodeData) : AggState :=
  nds.foldl processNode initAgg

/-- The degraded snapshot built when `get_cluster_state` returns `None`
(lines 327-337). -/
def degradedHealth (now : Int) : ClusterHealth :=
  { timestamp := now, nodes := [], primary_count := 0, replica_count := 0,
    unhealthy_nodes := 1, max_replication_lag := none, failover_ready := false,
    issues := ["Cannot connect to pg_auto_failover monitor"] }

/-- `perform_health_check` (lines 324-416).  The `cluster_state` argument is
the result of the `get_cluster_state()` I/O call (`none` models the fetch
failing); `now` is `datetime.now()` used for the degraded snapshot's
timestamp. -/
def perform_health_check (now : Int) (cluster_state : Option ClusterState) :
    ClusterHealth :=
  match cluster_state with
  | none => degradedHealth now
  | some cs =>
    let st := aggregate cs.nodes
    let failover_ready0 : Bool :=
      (st.primary_count == 1) && decide (1 ≤ st.replica_count) &&
        (st.unhealthy_nodes == 0)
    { timestamp := cs.timestamp, nodes := st.nodes,
      primary_count := st.primary_count, replica_count := st.replica_count,
      unhealthy_nodes := st.unhealthy_nodes,
      max_replication_lag := if 0 < st.max_lag then some st.max_lag else none,
      failover_ready :=
        if st.primary_count = 0 then false
        else if 1 < st.primary_count then false
        else failover_ready0,
      issues :=
        if st.primary_count = 0 then st.issues ++ ["No primary node found"]
        else if 1 < st.primary_count then
          st.issues ++ ["Multiple primary nodes detected"]
        else st.issues }

/-- `@dataclass AlertRule` from the source.  `condition` is the informational
string-typed condition field; evaluation branches on `name` (see
`evalCondition`). -/
structure AlertRule where
  name : String
  condition : String
  threshold : Int
  severity : String
  enabled : Bool := true
  cooldown_minutes : Int := 5
deriving DecidableEq, Repr

/-- The fixed rule list built at the top of `check_alerts` (lines 424-455).
`thr` is `self.config['thresholds']['max_replication_lag_bytes']`. -/
def alert_rules (thr : Int) : List AlertRule :=
  [ { name := "no_primary", condition := "primary_count == 0",
      threshold := 0, severity := "critical" },
    { name := "multiple_primaries", condition := "primary_count > 1",
      threshold := 1, severity := "critical" },
    { name := "unhealthy_nodes", condition := "unhealthy_nodes > 0",
      threshold := 0, severity := "warning" },
    { name := "high_replication_lag", condition := "max_replication_lag is not None",
      threshold := thr, severity := "warning" },
    { name := "failover_not_ready", condition := "not failover_ready",
      threshold := 0, severity := "info" } ]

/-- The name-branching condition evaluation of `check_alerts`
(lines 467-481); an unknown rule name leaves `should_alert = False`. -/
def evalCondition (r : AlertRule) (h : ClusterHealth) : Bool :=
  if r.name = "no_primary" then h.primary_count == 0
  else if r.name = "multiple_primaries" then decide (1 < h.primary_count)
  else if r.name = "unhealthy_nodes" then decide (0 < h.unhealthy_nodes)
  else if r.name = "high_replication_lag" then
    match h.max_replication_lag with
    | some lag => decide (r.threshold < lag)
    | none => false
  else if r.name = "failover_not_ready" then !h.failover_ready
  else false

/-- `self.alert_history`: rule name → timestamp of the last fired alert. -/
def AlertHistory : Type := String → Option Int

/-- Dictionary assignment `self.alert_history[rule.name] = current_time`. -/
def updateHist (hist : AlertHistory) (name : String) (now : Int) : AlertHistory :=
  fun n => if n = name then some now else hist n

/-- The emitted alert dictionary (lines 487-493).  The `message` field
(`_generate_alert_message`) is omitted: it involves Python float formatting
of the lag in MB, and no claim concerns its contents. -/
structure Alert where
  rule : String
  severity : String
  timestamp : Int
  health_data : ClusterHealth
deriving DecidableEq, Repr

/-- The cooldown guard of lines 462-464:
`last_alert and (current_time - last_alert).total_seconds() < cooldown_minutes * 60`.
`entry` is `self.alert_history.get(rule.name)`. -/
def inCooldown (entry : Option Int) (now cooldownSecs : Int) : Bool :=
  match entry with
  | none => false
  | some last => decide (now - last < cooldownSecs)

/-- The deduplicator acceptance operation as the spec states it: accept iff
no prior entry exists or `now - lastFired ≥ cooldownDuration`. -/
def accepts (entry : Option Int) (now cooldownSecs : Int) : Bool :=
  match entry with
  | none => true
  | some last => decide (cooldownSecs ≤ now - last)

/-- The alert dictionary built on a firing (lines 487-493). -/
def mkAlert (r : AlertRule) (now : Int) (h : ClusterHealth) : Alert :=
  { rule := r.name, severity := r.severity, timestamp := now,
    health_data := h }

/-- The `for rule in alert_rules` loop of `check_alerts` (lines 457-497),
threading the `alerts` list and the mutable `alert_history` dictionary. -/
def check_alerts_loop (h : ClusterHealth) (now : Int) :
    List AlertRule → List Alert → AlertHistory → List Alert × AlertHistory
  | [], alerts, hist => (alerts, hist)
  | r :: rest, alerts, hist =>
    if r.enabled = false then check_alerts_loop h now rest alerts hist
    else if inCooldown (hist r.name) now (r.cooldown_minutes * 60) then
      check_alerts_loop h now rest alerts hist
    else if evalCondition r h then
      check_alerts_loop h now rest (alerts ++ [mkAlert r now h])
        (updateHist hist r.name now)
    else check_alerts_loop h now rest alerts hist

/-- `check_alerts` (lines 418-497): evaluates the fixed rules against a
snapshot, returning the alerts and the updated `alert_history`. -/
def check_alerts (thr : Int) (h : ClusterHealth) (now : Int)
    (hist : AlertHistory) : List Alert × AlertHistory :=
  check_alerts_loop h now (alert_rules thr) [] hist

/-- The result dictionary of `test_failover` (lines 659-698); branches that
return early carry only `success` and `error`. -/
structure TestResult where
  success : Bool
  error : Option String
  current_primary : Option String
  replica_count : Option Nat
  unhealthy_nodes : Option Nat
  issues : List String
deriving DecidableEq, Repr

/-- The `for node in initial_state['nodes']: if node['reportedstate'] == 3:
primary_node = node; break` search (lines 669-673). -/
def find_primary (nds : List NodeData) : Option NodeData :=
  nds.find? (fun n => n.reportedstate == 3)

/-- `test_failover` (lines 659-698).  `s1` is the result of its own
`get_cluster_state()` call and `s2` the result of the second fetch performed
inside `perform_health_check()`. -/
def test_failover (now : Int) (s1 s2 : Option ClusterState) : TestResult :=
  match s1 with
  | none =>
    { success := false, error := some "Cannot get cluster state",
      current_primary := none, replica_count := none, unhealthy_nodes := none,
      issues := [] }
  | some cs =>
    match find_primary cs.nodes with
    | none =>
      { success := false, error := some "No primary node found",
        current_primary := none, replica_count := none,
        unhealthy_nodes := none, issues := [] }
    | some p =>
      let health := perform_health_check now s2
      { success := health.failover_ready, error := none,
        current_primary := some p.nodename,
        replica_count := some health.replica_count,
        unhealthy_nodes := some health.unhealthy_nodes,
        issues := health.issues }

/-- The `test-failover` branch of `main` (lines 712-714): it runs
`test_failover`, prints `json.dumps(result)` and falls through to the end of
`main` without any `sys.exit` call, so the interpreter exits with status 0
whenever the evaluation completes (the only `sys.exit(1)` in `main` is the
unknown-command branch).  Returns the result paired with the process exit
status. -/
def main_test_failover (now : Int) (s1 s2 : Option ClusterState) :
    TestResult × Nat :=
  (test_failover now s1 s2, 0)

/-! ## Spec-side characterisations

Definitions written from the spec's words, used to compare the code's
behaviour against (amended) spec statements. -/

/-- A node whose classified role is replica-like: the sampling branch of
`perform_health_check` runs exactly for `SECONDARY` and `WAIT_STANDBY`. -/
def isReplicaRole (nd : NodeData) : Prop :=
  NodeState.ofCode nd.reportedstate = NodeState.SECONDARY ∨
    NodeState.ofCode nd.reportedstate = NodeState.WAIT_STANDBY

instance (nd : NodeData) : Decidable (isReplicaRole nd) := by
  unfold isReplicaRole; infer_instance

/-- The replication samples the per-node loop iterates over (`[]` when
`get_replication_status` returned `None`). -/
def slotsOf (nd : NodeData) : List (Option Int) := nd.repStatus.getD []

/-- Spec-side: the node is a replica and one of its samples carries a
strictly positive byte lag. -/
def hasPositiveSample (nd : NodeData) : Prop :=
  isReplicaRole nd ∧ ∃ o ∈ slotsOf nd, ∃ v, o = some v ∧ 0 < v

instance (nd : NodeData) : Decidable (hasPositiveSample nd) := by
  unfold hasPositiveSample; infer_instance

/-- Spec-side: the last sample of the list whose lag value is truthy
(non-null and non-zero), if any. -/
def lastTruthyLag (slots : List (Option Int)) : Option Int :=
  (slots.reverse.find? lagTruthy).join

/-- Spec-side: the per-node lag the code actually records — the last truthy
sample for a replica-role node, `none` otherwise. -/
def nodeLagSpec (nd : NodeData) : Option Int :=
  if isReplicaRole nd then lastTruthyLag (slotsOf nd) else none

/-! ## Concrete fixtures for witnesses and counterexamples -/

/-- A healthy primary node (state code 3). -/
def ndPrimaryOK : NodeData :=
  { nodename := "pg1", nodehost := "host1", nodeport := 5432,
    reportedstate := 3, statechangetime := 0, health := .HEALTHY,
    healthMessage := "PostgreSQL 15.3", repStatus := none }

/-- A healthy secondary node with no replication samples. -/
def ndReplicaOK : NodeData :=
  { nodename := "pg2", nodehost := "host2", nodeport := 5433,
    reportedstate := 2, statechangetime := 0, health := .HEALTHY,
    healthMessage := "PostgreSQL 15.3", repStatus := none }

/-- A secondary node whose single replication sample measured a lag of
exactly 0 bytes (non-null, zero). -/
def ndReplicaZero : NodeData :=
  { nodename := "pg2", nodehost := "host2", nodeport := 5433,
    reportedstate := 2, statechangetime := 0, health := .HEALTHY,
    healthMessage := "PostgreSQL 15.3", repStatus := some [some 0] }

/-- A secondary node with two replication samples, lags 1500 then 500. -/
def ndReplicaTwo : NodeData :=
  { nodename := "pg2", nodehost := "host2", nodeport := 5433,
    reportedstate := 2, statechangetime := 0, health := .HEALTHY,
    healthMessage := "PostgreSQL 15.3", repStatus := some [some 1500, some 500] }

/-- An unhealthy secondary node. -/
def ndReplicaDown : NodeData :=
  { nodename := "pg2", nodehost := "host2", nodeport := 5433,
    reportedstate := 2, statechangetime := 0, health := .UNHEALTHY,
    healthMessage := "Cannot connect to node", repStatus := none }

/-- One healthy primary plus one healthy replica: failover-ready. -/
def csHealthy : ClusterState := { nodes := [ndPrimaryOK, ndReplicaOK], timestamp := 0 }

/-- No primary, one unhealthy replica. -/
def csNoPrimary : ClusterState := { nodes := [ndReplicaDown], timestamp := 0 }

/-- Only a primary, no replicas: evaluation completes but not failover-ready. -/
def csPrimaryOnly : ClusterState := { nodes := [ndPrimaryOK], timestamp := 0 }

/-- A replica whose sole sample measured zero lag. -/
def csZeroLag : ClusterState := { nodes := [ndPrimaryOK, ndReplicaZero], timestamp := 0 }

/-- A single replica with samples 1500 and 500. -/
def csTwoSamples : ClusterState := { nodes := [ndReplicaTwo], timestamp := 0 }

/-- The snapshot of a cluster with no primary (used for the cooldown
scenario: `no_primary` matches it). -/
def hNoPrim : ClusterHealth := perform_health_check 0 (some csNoPrimary)

/-- The failover-ready snapshot (no rule matches it). -/
def hOK : ClusterHealth := perform_health_check 0 (some csHealthy)

/-- The empty alert history at process start. -/
def emptyHist : AlertHistory := fun _ => none

/-- The alert history after the evaluation pass at `t = 0` on `hNoPrim`. -/
def histAfter0 : AlertHistory := (check_alerts 1000000 hNoPrim 0 emptyHist).2

/-- The `no_primary` rule exactly as `check_alerts` builds it. -/
def ruleNoPrimary : AlertRule :=
  { name := "no_primary", condition := "primary_count == 0",
    threshold := 0, severity := "critical" }

/-! ## Theorems -/

/-- C1: for every aggregation input, the snapshot's `failover_ready` flag is
true iff `primary_count = 1`, `replica_count ≥ 1` and `unhealthy_nodes = 0`;
in particular `failover_ready` implies `primary_count = 1` and
`unhealthy_nodes = 0`. -/
theorem failover_ready_iff (now : Int) (ocs : Option ClusterState) :
    ((perform_health_check now ocs).failover_ready = true ↔
      (perform_health_check now ocs).primary_count = 1 ∧
      1 ≤ (perform_health_check now ocs).replica_count ∧
      (perform_health_check now ocs).unhealthy_nodes = 0) ∧
    ((perform_health_check now ocs).failover_ready = true →
      (perform_health_check now ocs).primary_count = 1 ∧
      (perform_health_check now ocs).unhealthy_nodes = 0) := by
  have hiff : (perform_health_check now ocs).failover_ready = true ↔
      (perform_health_check now ocs).primary_count = 1 ∧
      1 ≤ (perform_health_check now ocs).replica_count ∧
      (perform_health_check now ocs).unhealthy_nodes = 0 := by
    cases ocs with
    | none => simp [perform_health_check, degradedHealth]
    | some cs =>
      by_cases h0 : (aggregate cs.nodes).primary_count = 0
      · simp [perform_health_check, h0]
      · by_cases h1 : 1 < (aggregate cs.nodes).primary_count
        · simp [perform_health_check, h0, h1]
          omega
        · have hp : (aggregate cs.nodes).primary_count = 1 := by omega
          simp [perform_health_check, h0, h1, hp]
  exact ⟨hiff, fun h => ⟨(hiff.mp h).1, (hiff.mp h).2.2⟩⟩

/-- Witness for C1 at a concrete healthy cluster. -/
theorem failover_ready_iff_witness :
    (perform_health_check 0 (some csHealthy)).failover_ready = true ∧
    (perform_health_check 0 (some csHealthy)).primary_count = 1 ∧
    (perform_health_check 0 (some csHealthy)).unhealthy_nodes = 0 := by
  have h : (perform_health_check 0 (some csHealthy)).failover_ready = true :=
    (failover_ready_iff 0 (some csHealthy)).1.mpr (by decide)
  exact ⟨h, (failover_ready_iff 0 (some csHealthy)).2 h⟩

/-- C2: when the aggregated `primary_count` is 0 exactly the issue string
"No primary node found" is appended (after any per-node issues) and
`failover_ready` is forced false; when it exceeds 1 exactly
"Multiple primary nodes detected" is appended and `failover_ready` is forced
false; the two causes are mutually exclusive. -/
theorem role_count_issues (now : Int) (cs : ClusterState) :
    ((aggregate cs.nodes).primary_count = 0 →
      (perform_health_check now (some cs)).issues =
        (aggregate cs.nodes).issues ++ ["No primary node found"] ∧
      (perform_health_check now (some cs)).failover_ready = false) ∧
    (1 < (aggregate cs.nodes).primary_count →
      (perform_health_check now (some cs)).issues =
        (aggregate cs.nodes).issues ++ ["Multiple primary nodes detected"] ∧
      (perform_health_check now (some cs)).failover_ready = false) ∧
    ¬((aggregate cs.nodes).primary_count = 0 ∧
        1 < (aggregate cs.nodes).primary_count) := by
  refine ⟨fun h0 => ?_, fun h1 => ?_, by omega⟩
  · simp [perform_health_check, h0]
  · have h0 : ¬(aggregate cs.nodes).primary_count = 0 := by omega
    simp [perform_health_check, h0, h1]

/-- Witness for C2: a cluster with no primary and one unhealthy replica —
the role-count issue is appended after the per-node issue. -/
theorem role_count_issues_witness :
    (perform_health_check 0 (some csNoPrimary)).issues =
      ["Node pg2: Cannot connect to node", "No primary node found"] ∧
    (perform_health_check 0 (some csNoPrimary)).failover_ready = false := by
  have h := (role_count_issues 0 csNoPrimary).1 (by decide)
  exact ⟨by rw [h.1]; decide, h.2⟩

/-- C7: when the topology fetch fails (`get_cluster_state` returns `None`)
the evaluation still returns a snapshot (it is a total function of the fetch
result), with an empty node list, exactly one synthetic issue and
`failover_ready = false`. -/
theorem topology_failure_degraded (now : Int) :
    (perform_health_check now none).nodes = [] ∧
    (perform_health_check now none).issues =
      ["Cannot connect to pg_auto_failover monitor"] ∧
    (perform_health_check now none).failover_ready = false :=
  ⟨rfl, rfl, rfl⟩

/-- C8: role classification is total over all integer codes: each recognized
code maps to its enum member and every out-of-range code yields `UNKNOWN`
(the embedded `try/except ValueError` never fails). -/
theorem classification_total (c : Int) :
    (NodeState.ofCode (-1) = NodeState.UNKNOWN ∧
     NodeState.ofCode 0 = NodeState.DRAINING ∧
     NodeState.ofCode 1 = NodeState.WAIT_STANDBY ∧
     NodeState.ofCode 2 = NodeState.SECONDARY ∧
     NodeState.ofCode 3 = NodeState.PRIMARY ∧
     NodeState.ofCode 4 = NodeState.SINGLE) ∧
    (c < -1 ∨ 4 < c → NodeState.ofCode c = NodeState.UNKNOWN) := by
  refine ⟨by decide, fun h => ?_⟩
  unfold NodeState.ofCode
  split_ifs <;> first | rfl | omega

/-- Witness for C8 at the unrecognized code 99. -/
theorem classification_total_witness :
    NodeState.ofCode 99 = NodeState.UNKNOWN :=
  (classification_total 99).2 (Or.inr (by decide))

/-- C10: the degraded snapshot reports one unhealthy node although its node
list is empty (so `unhealthy_nodes` exceeds the node count), and the rules
whose predicates match it are exactly `no_primary` (critical),
`unhealthy_nodes` (warning) and `failover_not_ready` (info). -/
theorem degraded_unhealthy_exceeds_nodes (now thr : Int) :
    (perform_health_check now none).unhealthy_nodes = 1 ∧
    (perform_health_check now none).nodes = [] ∧
    (perform_health_check now none).nodes.length <
      (perform_health_check now none).unhealthy_nodes ∧
    ((alert_rules thr).filter
        (fun r => evalCondition r (perform_health_check now none))).map
        (fun r => (r.name, r.severity)) =
      [("no_primary", "critical"), ("unhealthy_nodes", "warning"),
       ("failover_not_ready", "info")] := by
  refine ⟨rfl, rfl, by norm_num [perform_health_check, degradedHealth], ?_⟩
  simp [perform_health_check, degradedHealth, alert_rules, evalCondition]

/-- Helper: the running `max_lag` after the slot loop is positive iff it was
already positive or some sample carries a strictly positive lag (a zero or
null sample never raises it, a negative one never exceeds the non-negative
running maximum... the statement is over arbitrary starting values). -/
theorem slotFold_fst_pos (slots : List (Option Int)) (m : Int) (r : Option Int) :
    0 < (slotFold slots m r).1 ↔
      0 < m ∨ ∃ o ∈ slots, ∃ v, o = some v ∧ 0 < v := by
  induction slots generalizing m r with
  | nil => simp [slotFold]
  | cons o rest ih =>
    cases o with
    | none =>
      rw [slotFold, ih]
      simp
    | some v =>
      rw [slotFold, ih]
      by_cases hc : v ≠ 0 ∧ m < v
      · rw [if_pos hc]
        by_cases hE : ∃ o ∈ rest, ∃ w, o = some w ∧ 0 < w
        · simp [hE]
        · simp [hE]
          omega
      · rw [if_neg hc]
        by_cases hE : ∃ o ∈ rest, ∃ w, o = some w ∧ 0 < w
        · simp [hE]
        · simp [hE]
          omega

/-- Helper: the cluster-wide `max_lag` accumulator is positive after the node
loop iff it started positive or some replica-role node has a strictly
positive sample. -/
theorem aggregate_max_pos (nds : List NodeData) (st : AggState) :
    0 < (nds.foldl processNode st).max_lag ↔
      0 < st.max_lag ∨ ∃ nd ∈ nds, hasPositiveSample nd := by
  induction nds generalizing st with
  | nil => simp
  | cons nd rest ih =>
    rw [List.foldl_cons, ih]
    have hstep : 0 < (processNode st nd).max_lag ↔
        0 < st.max_lag ∨ hasPositiveSample nd := by
      unfold processNode hasPositiveSample isReplicaRole slotsOf
      by_cases hrep : NodeState.ofCode nd.reportedstate = NodeState.SECONDARY ∨
          NodeState.ofCode nd.reportedstate = NodeState.WAIT_STANDBY
      · cases hrs : nd.repStatus with
        | none => simp [hrep, hrs]
        | some slots =>
          by_cases hne : slots = []
          · simp [hrep, hrs, hne]
          · simp [hrep, hrs, hne, slotFold_fst_pos]
      · simp [hrep]
    rw [hstep]
    simp only [List.mem_cons]
    constructor
    · rintro ((h | h) | h)
      · exact Or.inl h
      · exact Or.inr ⟨nd, Or.inl rfl, h⟩
      · rcases h with ⟨x, hx, hp⟩
        exact Or.inr ⟨x, Or.inr hx, hp⟩
    · rintro (h | ⟨x, hx | hx, hp⟩)
      · exact Or.inl (Or.inl h)
      · exact Or.inl (Or.inr (hx ▸ hp))
      · exact Or.inr ⟨x, hx, hp⟩

/-- C3 counterexample: a replica-role node produced a non-null lag sample of
exactly 0 bytes, yet the snapshot's `max_replication_lag` is null (the code
treats a measured zero like "not measured": `if lag:` is falsy at 0 and the
final value is `max_lag if max_lag > 0 else None`). -/
theorem zero_lag_yields_null :
    NodeState.ofCode ndReplicaZero.reportedstate = NodeState.SECONDARY ∧
    ndReplicaZero.repStatus = some [some 0] ∧
    (perform_health_check 0 (some csZeroLag)).max_replication_lag = none := by
  decide

/-- C3 amended: `max_replication_lag` is non-null iff at least one
replica-role node produced a sample with a strictly positive byte lag; a
measured lag of zero (or a null sample) leaves it null. -/
theorem max_lag_nonnull_iff (now : Int) (cs : ClusterState) :
    (perform_health_check now (some cs)).max_replication_lag ≠ none ↔
      ∃ nd ∈ cs.nodes, hasPositiveSample nd := by
  have hfield : (perform_health_check now (some cs)).max_replication_lag =
      if 0 < (aggregate cs.nodes).max_lag then some (aggregate cs.nodes).max_lag
      else none := rfl
  rw [hfield]
  by_cases hpos : 0 < (aggregate cs.nodes).max_lag
  · simp only [if_pos hpos, ne_eq, Option.some_ne_none, not_false_eq_true,
      true_iff]
    have := (aggregate_max_pos cs.nodes initAgg).mp hpos
    simpa [initAgg] using this
  · simp only [if_neg hpos, ne_eq, not_true_eq_false, false_iff]
    intro hex
    exact hpos ((aggregate_max_pos cs.nodes initAgg).mpr (Or.inr hex))

/-- Helper: the node's `replication_lag` after the slot loop is the last
sample with a truthy (non-null, non-zero) lag, or the initial value if no
sample is truthy; it does not depend on the running `max_lag`. -/
theorem slotFold_snd (slots : List (Option Int)) (m : Int) (r : Option Int) :
    (slotFold slots m r).2 = (slots.reverse.find? lagTruthy).getD r := by
  induction slots generalizing m r with
  | nil => simp [slotFold]
  | cons o rest ih =>
    rw [List.reverse_cons, List.find?_append]
    cases o with
    | none =>
      rw [slotFold, ih]
      cases hf : rest.reverse.find? lagTruthy <;>
        simp [hf, lagTruthy, Option.or]
    | some v =>
      rw [slotFold, ih]
      by_cases hv : v = 0
      · cases hf : rest.reverse.find? lagTruthy <;>
          simp [hf, lagTruthy, hv, Option.or]
      · cases hf : rest.reverse.find? lagTruthy <;>
          simp [hf, lagTruthy, hv, Option.or]

/-- Helper: the recorded per-node lags after the node loop are, in order,
`nodeLagSpec` of each input node (appended after whatever the accumulator
already held). -/
theorem aggregate_nodes_lag (nds : List NodeData) (st : AggState) :
    ((nds.foldl processNode st).nodes).map (fun i => i.replication_lag) =
      st.nodes.map (fun i => i.replication_lag) ++ nds.map nodeLagSpec := by
  induction nds generalizing st with
  | nil => simp
  | cons nd rest ih =>
    rw [List.foldl_cons, ih]
    have hstep : ((processNode st nd).nodes).map (fun i => i.replication_lag) =
        st.nodes.map (fun i => i.replication_lag) ++ [nodeLagSpec nd] := by
      unfold processNode nodeLagSpec isReplicaRole slotsOf lastTruthyLag
      by_cases hrep : NodeState.ofCode nd.reportedstate = NodeState.SECONDARY ∨
          NodeState.ofCode nd.reportedstate = NodeState.WAIT_STANDBY
      · cases hrs : nd.repStatus with
        | none => simp [hrep, hrs]
        | some slots =>
          by_cases hne : slots = []
          · simp [hrep, hrs, hne]
          · simp [hrep, hrs, hne, slotFold_snd]
            cases hf : slots.reverse.find? lagTruthy <;> simp [hf]
      · simp [hrep]
    rw [hstep]
    simp

/-- C4 counterexample: a replica with samples of 1500 then 500 bytes; the
recorded per-node lag is 500 (the last truthy sample), not the maximum 1500
(only the cluster-wide `max_lag` takes the maximum). -/
theorem last_sample_not_max :
    ndReplicaTwo.repStatus = some [some 1500, some 500] ∧
    (slotsOf ndReplicaTwo).foldl (fun m o => max m (o.getD 0)) 0 = 1500 ∧
    ((perform_health_check 0 (some csTwoSamples)).nodes).map
      (fun i => i.replication_lag) = [some 500] ∧
    (some (500 : Int)) ≠ some 1500 := by
  decide

/-- C4 amended: for every replica node, the recorded per-node replication
lag is the lag of the *last* sample with a truthy (non-null, non-zero)
value, or null if there is none; non-replica nodes record null. -/
theorem node_lag_is_last_truthy (now : Int) (cs : ClusterState) :
    ((perform_health_check now (some cs)).nodes).map
      (fun i => i.replication_lag) = cs.nodes.map nodeLagSpec := by
  have hn : (perform_health_check now (some cs)).nodes =
      (aggregate cs.nodes).nodes := rfl
  rw [hn]
  have := aggregate_nodes_lag cs.nodes initAgg
  simpa [initAgg] using this

/-- Helper: the code's cooldown guard is the negation of the spec's `accepts`. -/
theorem inCooldown_eq_not_accepts (e : Option Int) (now cd : Int) :
    inCooldown e now cd = !accepts e now cd := by
  cases e with
  | none => rfl
  | some last =>
    simp only [inCooldown, accepts]
    by_cases hlt : now - last < cd
    · have hle : ¬cd ≤ now - last := by omega
      simp [hlt, hle]
    · have hle : cd ≤ now - last := by omega
      simp [hlt, hle]

/-- Helper: applying a history update. -/
theorem updateHist_apply (hist : AlertHistory) (m : String) (t : Int)
    (n : String) : updateHist hist m t n = if n = m then some t else hist n :=
  rfl

/-- Helper: alerts already accumulated survive the rest of the rule loop. -/
theorem check_alerts_loop_mono (h : ClusterHealth) (now : Int)
    (rs : List AlertRule) (a : Alert) :
    ∀ (as : List Alert) (hist : AlertHistory), a ∈ as →
      a ∈ (check_alerts_loop h now rs as hist).1 := by
  induction rs with
  | nil => intro as hist ha; simpa [check_alerts_loop] using ha
  | cons r rest ih =>
    intro as hist ha
    rw [check_alerts_loop]
    split_ifs with h1 h2 h3
    · exact ih as hist ha
    · exact ih as hist ha
    · exact ih _ _ (List.mem_append_left _ ha)
    · exact ih as hist ha

/-- Helper: every alert the loop emits carries the name of one of the rules
it was given. -/
theorem check_alerts_loop_sub (h : ClusterHealth) (now : Int)
    (rs : List AlertRule) (a : Alert) :
    ∀ (as : List Alert) (hist : AlertHistory),
      a ∈ (check_alerts_loop h now rs as hist).1 →
      a ∈ as ∨ a.rule ∈ rs.map (fun r => r.name) := by
  induction rs with
  | nil =>
    intro as hist ha
    rw [check_alerts_loop] at ha
    exact Or.inl ha
  | cons r rest ih =>
    intro as hist ha
    rw [check_alerts_loop] at ha
    split_ifs at ha with h1 h2 h3
    · rcases ih _ _ ha with hx | hx
      · exact Or.inl hx
      · exact Or.inr (by simp [hx])
    · rcases ih _ _ ha with hx | hx
      · exact Or.inl hx
      · exact Or.inr (by simp [hx])
    · rcases ih _ _ ha with hx | hx
      · rcases List.mem_append.mp hx with hy | hy
        · exact Or.inl hy
        · have : a.rule = r.name := by
            rcases List.mem_singleton.mp hy with rfl
            rfl
          exact Or.inr (by simp [this])
      · exact Or.inr (by simp [hx])
    · rcases ih _ _ ha with hx | hx
      · exact Or.inl hx
      · exact Or.inr (by simp [hx])

/-- Helper: once a history entry holds the current time it keeps it for the
rest of the pass (every firing writes the same `now`). -/
theorem check_alerts_loop_inv (h : ClusterHealth) (now : Int)
    (rs : List AlertRule) (n : String) :
    ∀ (as : List Alert) (hist : AlertHistory), hist n = some now →
      (check_alerts_loop h now rs as hist).2 n = some now := by
  induction rs with
  | nil =>
    intro as hist hh
    rw [check_alerts_loop]
    exact hh
  | cons r rest ih =>
    intro as hist hh
    rw [check_alerts_loop]
    split_ifs with h1 h2 h3
    · exact ih _ _ hh
    · exact ih _ _ hh
    · refine ih _ _ ?_
      rw [updateHist_apply]
      split_ifs <;> simp [hh]
    · exact ih _ _ hh

/-- Helper (frame): a name that labels no emitted alert keeps its history
entry across the whole pass. -/
theorem check_alerts_loop_frame (h : ClusterHealth) (now : Int)
    (rs : List AlertRule) (n : String) :
    ∀ (as : List Alert) (hist : AlertHistory),
      n ∉ (check_alerts_loop h now rs as hist).1.map (fun a => a.rule) →
      (check_alerts_loop h now rs as hist).2 n = hist n := by
  induction rs with
  | nil =>
    intro as hist _
    rw [check_alerts_loop]
  | cons r rest ih =>
    intro as hist hn
    rw [check_alerts_loop] at hn ⊢
    split_ifs at hn ⊢ with h1 h2 h3
    · exact ih _ _ hn
    · exact ih _ _ hn
    · have hmem := check_alerts_loop_mono h now rest (mkAlert r now h)
        (as ++ [mkAlert r now h]) (updateHist hist r.name now)
        (List.mem_append_right _ (List.mem_singleton.mpr rfl))
      have hne : n ≠ r.name := by
        intro he
        apply hn
        have hmap := List.mem_map_of_mem (fun a => a.rule) hmem
        simpa [mkAlert, he] using hmap
      rw [ih _ _ hn, updateHist_apply, if_neg hne]
    · exact ih _ _ hn

/-- Helper: a name that labels a newly emitted alert ends the pass mapped to
the current time. -/
theorem check_alerts_loop_fired (h : ClusterHealth) (now : Int)
    (rs : List AlertRule) (n : String) :
    ∀ (as : List Alert) (hist : AlertHistory),
      n ∈ (check_alerts_loop h now rs as hist).1.map (fun a => a.rule) →
      n ∉ as.map (fun a => a.rule) →
      (check_alerts_loop h now rs as hist).2 n = some now := by
  induction rs with
  | nil =>
    intro as hist h1 h2
    rw [check_alerts_loop] at h1
    exact absurd h1 h2
  | cons r rest ih =>
    intro as hist h1 h2
    rw [check_alerts_loop] at h1 ⊢
    split_ifs at h1 ⊢ with hb1 hb2 hb3
    · exact ih _ _ h1 h2
    · exact ih _ _ h1 h2
    · by_cases hn : n = r.name
      · subst hn
        refine check_alerts_loop_inv h now rest _ _ _ ?_
        rw [updateHist_apply, if_pos rfl]
      · refine ih _ _ h1 ?_
        simp only [List.map_append, List.mem_append]
        rintro (hx | hx)
        · exact h2 hx
        · simp at hx
          exact hn hx
    · exact ih _ _ h1 h2

/-- Helper: the alert accumulator only prefixes the loop's own output, and
the final history does not depend on it. -/
theorem check_alerts_loop_acc (h : ClusterHealth) (now : Int)
    (rs : List AlertRule) :
    ∀ (as : List Alert) (hist : AlertHistory),
      (check_alerts_loop h now rs as hist).1 =
        as ++ (check_alerts_loop h now rs [] hist).1 ∧
      (check_alerts_loop h now rs as hist).2 =
        (check_alerts_loop h now rs [] hist).2 := by
  induction rs with
  | nil =>
    intro as hist
    rw [check_alerts_loop, check_alerts_loop]
    simp
  | cons r rest ih =>
    intro as hist
    rw [check_alerts_loop, check_alerts_loop]
    split_ifs with h1 h2 h3
    · exact ih as hist
    · exact ih as hist
    · refine ⟨?_, ?_⟩
      · rw [(ih (as ++ [mkAlert r now h]) (updateHist hist r.name now)).1,
            (ih ([] ++ [mkAlert r now h]) (updateHist hist r.name now)).1]
        simp
      · rw [(ih (as ++ [mkAlert r now h]) (updateHist hist r.name now)).2,
            (ih ([] ++ [mkAlert r now h]) (updateHist hist r.name now)).2]
    · exact ih as hist

/-- Helper: for a rule list with distinct names, a matching, enabled rule
fires exactly when `accepts` allows its history entry, and an
accepted firing records the current time for that rule. -/
theorem check_alerts_loop_accepts (h : ClusterHealth) (now : Int)
    (rs : List AlertRule) (r : AlertRule) :
    ∀ (hist : AlertHistory),
      (rs.map (fun x => x.name)).Nodup → r ∈ rs → r.enabled = true →
      evalCondition r h = true →
      ((r.name ∈ (check_alerts_loop h now rs [] hist).1.map (fun a => a.rule) ↔
          accepts (hist r.name) now (r.cooldown_minutes * 60) = true) ∧
       (accepts (hist r.name) now (r.cooldown_minutes * 60) = true →
          (check_alerts_loop h now rs [] hist).2 r.name = some now)) := by
  induction rs with
  | nil =>
    intro hist _ hmem _ _
    exact absurd hmem (List.not_mem_nil r)
  | cons r0 rest ih =>
    intro hist hnd hmem hen hev
    have hnd' : (rest.map (fun x => x.name)).Nodup :=
      (List.nodup_cons.mp (by simpa using hnd)).2
    have hhead : r0.name ∉ rest.map (fun x => x.name) :=
      (List.nodup_cons.mp (by simpa using hnd)).1
    rcases List.mem_cons.mp hmem with heq | hmem'
    · subst heq
      rw [check_alerts_loop, if_neg (by simp [hen])]
      by_cases hic : inCooldown (hist r.name) now (r.cooldown_minutes * 60) = true
      · have hadm : accepts (hist r.name) now (r.cooldown_minutes * 60) = false := by
          rw [inCooldown_eq_not_accepts] at hic
          cases hadm' : accepts (hist r.name) now (r.cooldown_minutes * 60) <;>
            simp_all
        rw [if_pos hic]
        constructor
        · constructor
          · intro hx
            rcases List.mem_map.mp hx with ⟨a, ha, hrule⟩
            rcases check_alerts_loop_sub h now rest a [] hist ha with hy | hy
            · exact absurd hy (List.not_mem_nil a)
            · exact absurd (hrule ▸ hy) hhead
          · intro hx
            rw [hx] at hadm
            exact absurd hadm (by simp)
        · intro hx
          rw [hx] at hadm
          exact absurd hadm (by simp)
      · have hadm : accepts (hist r.name) now (r.cooldown_minutes * 60) = true := by
          rw [inCooldown_eq_not_accepts] at hic
          cases hadm' : accepts (hist r.name) now (r.cooldown_minutes * 60) <;>
            simp_all
        rw [if_neg hic, if_pos hev]
        refine ⟨⟨fun _ => hadm, fun _ => ?_⟩, fun _ => ?_⟩
        · have hmem2 := check_alerts_loop_mono h now rest (mkAlert r now h)
            ([] ++ [mkAlert r now h]) (updateHist hist r.name now)
            (List.mem_append_right _ (List.mem_singleton.mpr rfl))
          have := List.mem_map_of_mem (fun a => a.rule) hmem2
          simpa [mkAlert] using this
        · refine check_alerts_loop_inv h now rest r.name _ _ ?_
          rw [updateHist_apply, if_pos rfl]
    · have hrn : r.name ∈ rest.map (fun x => x.name) :=
        List.mem_map_of_mem (fun x => x.name) hmem'
      have hrneq : r.name ≠ r0.name := fun he => hhead (he ▸ hrn)
      rw [check_alerts_loop]
      split_ifs with hb1 hb2 hb3
      · exact ih hist hnd' hmem' hen hev
      · exact ih hist hnd' hmem' hen hev
      · have hacc := check_alerts_loop_acc h now rest ([] ++ [mkAlert r0 now h])
          (updateHist hist r0.name now)
        have hist_eq : (updateHist hist r0.name now) r.name = hist r.name := by
          rw [updateHist_apply, if_neg hrneq]
        have IH := ih (updateHist hist r0.name now) hnd' hmem' hen hev
        rw [hist_eq] at IH
        constructor
        · rw [hacc.1]
          simp only [List.map_append, List.mem_append]
          constructor
          · rintro (hx | hx)
            · exact absurd (by simpa [mkAlert] using hx) hrneq
            · exact IH.1.mp hx
          · intro hx
            exact Or.inr (IH.1.mpr hx)
        · intro hx
          rw [hacc.2]
          exact IH.2 hx
      · exact ih hist hnd' hmem' hen hev

/-- Helper: every rule in the fixed rule list is enabled. -/
theorem mem_alert_rules_enabled (thr : Int) (r : AlertRule)
    (hr : r ∈ alert_rules thr) : r.enabled = true := by
  simp only [alert_rules, List.mem_cons, List.not_mem_nil, or_false] at hr
  rcases hr with h1 | h1 | h1 | h1 | h1 <;> subst h1 <;> rfl

/-- Helper: the five rule names are pairwise distinct. -/
theorem alert_rules_names_nodup (thr : Int) :
    ((alert_rules thr).map (fun x => x.name)).Nodup := by
  simp [alert_rules]

/-- C5: a rule whose predicate matches the snapshot produces an alert iff
`accepts` allows its history entry (no prior firing, or the elapsed time
reached the cooldown of `cooldown_minutes * 60` seconds); on admission the
current time is recorded as the rule's new last-fired time. -/
theorem cooldown_accepts (thr : Int) (h : ClusterHealth) (now : Int)
    (hist : AlertHistory) (r : AlertRule) (hr : r ∈ alert_rules thr)
    (hev : evalCondition r h = true) :
    ((∃ a ∈ (check_alerts thr h now hist).1, a.rule = r.name) ↔
      accepts (hist r.name) now (r.cooldown_minutes * 60) = true) ∧
    (accepts (hist r.name) now (r.cooldown_minutes * 60) = true →
      (check_alerts thr h now hist).2 r.name = some now) := by
  have key := check_alerts_loop_accepts h now (alert_rules thr) r hist
    (alert_rules_names_nodup thr) hr (mem_alert_rules_enabled thr r hr) hev
  refine ⟨?_, key.2⟩
  rw [← key.1, List.mem_map]
  constructor
  · rintro ⟨a, ha, hrule⟩
    exact ⟨a, ha, hrule⟩
  · rintro ⟨a, ha, hrule⟩
    exact ⟨a, ha, hrule⟩

/-- Witness for C5: the claim's cooldown scenario.  Against a no-primary
snapshot, `no_primary` fires at `t = 0`; with the recorded history an
identical snapshot at `t = 100` (inside the 300 s cooldown) produces no
alert at all, and at `t = 301` the rule fires again (shown by applying the
accepts theorem). -/
theorem cooldown_accepts_witness :
    ((check_alerts 1000000 hNoPrim 0 emptyHist).1.map (fun a => a.rule) =
      ["no_primary", "unhealthy_nodes", "failover_not_ready"]) ∧
    ((check_alerts 1000000 hNoPrim 100 histAfter0).1 = []) ∧
    (∃ a ∈ (check_alerts 1000000 hNoPrim 301 histAfter0).1,
      a.rule = "no_primary") := by
  refine ⟨by decide, by decide, ?_⟩
  have h := (cooldown_accepts 1000000 hNoPrim 301 histAfter0 ruleNoPrimary
    (by decide) (by decide)).1.mpr (by decide)
  simpa [ruleNoPrimary] using h

/-- C6 (frame): one evaluation pass changes the cooldown map only at names
of rules that actually fired (each set to the current time); a rule that
matches but is inside its cooldown window produces no alert and leaves its
entry unchanged; every other entry is unchanged. -/
theorem cooldown_frame (thr : Int) (h : ClusterHealth) (now : Int)
    (hist : AlertHistory) :
    (∀ n, n ∉ (check_alerts thr h now hist).1.map (fun a => a.rule) →
      (check_alerts thr h now hist).2 n = hist n) ∧
    (∀ n, n ∈ (check_alerts thr h now hist).1.map (fun a => a.rule) →
      (check_alerts thr h now hist).2 n = some now) ∧
    (∀ r, r ∈ alert_rules thr → evalCondition r h = true →
      accepts (hist r.name) now (r.cooldown_minutes * 60) = false →
      r.name ∉ (check_alerts thr h now hist).1.map (fun a => a.rule) ∧
      (check_alerts thr h now hist).2 r.name = hist r.name) := by
  refine ⟨?_, ?_, ?_⟩
  · intro n hn
    exact check_alerts_loop_frame h now (alert_rules thr) n [] hist hn
  · intro n hn
    exact check_alerts_loop_fired h now (alert_rules thr) n [] hist hn (by simp)
  · intro r hr hev hadm
    have key := check_alerts_loop_accepts h now (alert_rules thr) r hist
      (alert_rules_names_nodup thr) hr (mem_alert_rules_enabled thr r hr) hev
    have hnot : r.name ∉ (check_alerts thr h now hist).1.map (fun a => a.rule) := by
      intro hx
      have htrue := key.1.mp hx
      rw [hadm] at htrue
      exact absurd htrue (by simp)
    exact ⟨hnot, check_alerts_loop_frame h now (alert_rules thr) r.name [] hist hnot⟩

/-- Witness for C6 at a healthy snapshot on which no rule fires: the
`no_primary` cooldown entry is untouched. -/
theorem cooldown_frame_witness :
    (check_alerts 1000000 hOK 0 emptyHist).2 "no_primary" =
      emptyHist "no_primary" :=
  (cooldown_frame 1000000 hOK 0 emptyHist).1 "no_primary" (by decide)

/-- C9 counterexample: an evaluation that completes on a cluster that is not
failover-ready (a primary with no replicas) still exits with status 0 — the
`test-failover` branch of `main` never maps readiness to exit status 1. -/
theorem test_failover_exit_counterexample :
    (main_test_failover 0 (some csPrimaryOnly) (some csPrimaryOnly)).1.success
      = false ∧
    (main_test_failover 0 (some csPrimaryOnly) (some csPrimaryOnly)).2 = 0 ∧
    (main_test_failover 0 (some csPrimaryOnly) (some csPrimaryOnly)).2 ≠ 1 := by
  decide

/-- C9 amended: the `test-failover` subcommand prints a JSON verdict whose
`success` field equals the snapshot's failover readiness, but the process
exit status is 0 whenever the evaluation completes, regardless of
readiness. -/
theorem test_failover_exit (now : Int) (s1 s2 : Option ClusterState)
    (cs : ClusterState) (p : NodeData) (h1 : s1 = some cs)
    (h2 : find_primary cs.nodes = some p) :
    (main_test_failover now s1 s2).2 = 0 ∧
    (main_test_failover now s1 s2).1.success =
      (perform_health_check now s2).failover_ready ∧
    (main_test_failover now s1 s2).1.current_primary = some p.nodename := by
  subst h1
  simp [main_test_failover, test_failover, h2]

/-- Witness for C9 at a concrete healthy cluster. -/
theorem test_failover_exit_witness :
    (main_test_failover 0 (some csHealthy) (some csHealthy)).2 = 0 ∧
    (main_test_failover 0 (some csHealthy) (some csHealthy)).1.success
      = true := by
  have h := test_failover_exit 0 (some csHealthy) (some csHealthy) csHealthy
    ndPrimaryOK rfl (by decide)
  exact ⟨h.1, by rw [h.2.1]; decide⟩

end PGHA
